import Mathlib

/-!
Verification development for the SlabGen surface/slab-generation engine.

The development shallowly embeds the core of the repository:
`src/core/slab_generator.py` (two-stage oriented slab builder, surface-region
extraction, structure comparison), `src/core/screening.py` (batch surface
screener), and the legacy copy of the pipeline in `src/main.py`.

Coordinates are modelled over `ℚ`.  The external pymatgen capabilities
(`SlabGenerator`, `StructureMatcher`, Miller-index enumeration, `is_symmetric`,
`surface_area`, `reduced_formula`) are not part of the repository source; they
are modelled from the specification as abstract capability records, with every
such definition marked `Modelled from the spec:` in its doc comment.
-/

/-- Cartesian 3-vector over the rationals. -/
structure Vec3 where
  x : ℚ
  y : ℚ
  z : ℚ
deriving DecidableEq, Inhabited

/-- One atomic site: species label, Cartesian coordinates and the per-site
property dictionary (pymatgen `site.properties`, modelled as a key/value list). -/
structure AtomSite where
  species : String
  coords : Vec3
  properties : List (String × String)
deriving DecidableEq, Inhabited

/-- Lattice: three basis vectors.  Carried through unchanged by the operations
modelled here. -/
structure CrystalLattice where
  a : Vec3
  b : Vec3
  c : Vec3
deriving DecidableEq, Inhabited

/-- A periodic structure: one lattice and an ordered list of sites
(pymatgen `Structure`). -/
structure Structure where
  lattice : CrystalLattice
  sites : List AtomSite
deriving DecidableEq, Inhabited

/-- A slab: a structure together with the Miller index it exposes and the
termination shift (pymatgen `Slab`; the source reads `slab.shift` with a
`getattr` default, the spec models `shift` as a required field). -/
structure Slab where
  struct : Structure
  miller_index : Int × Int × Int
  shift : ℚ
deriving DecidableEq, Inhabited

/-- Arguments of the external `SlabGenerator` constructor as used by
`oriented_slab_replication` (both copies of it). -/
structure SlabGenParams where
  initial_structure : Structure
  miller_index : Int × Int × Int
  min_slab_size : ℚ
  min_vacuum_size : ℚ
  center_slab : Bool
deriving DecidableEq, Inhabited

/-- Errors of a single slab-build call, per the spec's error taxonomy (§7). -/
inductive SlabError where
  | invalidMillerIndex : SlabError
  | generationFailure : String → SlabError
deriving DecidableEq, Inhabited

/-- Modelled from the spec: the external pymatgen `SlabGenerator` constructor
(missing from `src/`) validates its Miller index; `(h,k,l) = (0,0,0)` is
rejected with `InvalidMillerIndex` before any geometry is attempted (§4.1 step
1, §7). -/
def mkSlabGenerator (p : SlabGenParams) : Except SlabError SlabGenParams :=
  if p.miller_index = ((0 : Int), (0 : Int), (0 : Int)) then
    Except.error SlabError.invalidMillerIndex
  else
    Except.ok p

/-- Modelled from the spec: the geometric core of the external pymatgen
`SlabGenerator` (missing from `src/`).  `get_slab_at` produces the slab for a
given termination shift, `possible_shifts` enumerates the distinct termination
shifts (§4.1 termination semantics), `default_shift` is the shift of the one
arbitrary valid termination returned by `get_slab()` — the spec requires it to
be one of the enumerated terminations (§8 termination count consistency).
`make_supercell` is the `[1, 1, z_reps]` replication and
`get_orthogonal_c_slab` the optional orthogonalization (§4.1 steps 2 and 4). -/
structure SlabGenLib where
  get_slab_at : SlabGenParams → ℚ → Slab
  possible_shifts : SlabGenParams → List ℚ
  default_shift : SlabGenParams → ℚ
  default_shift_mem : ∀ p, default_shift p ∈ possible_shifts p
  make_supercell : Structure → Nat → Structure
  get_orthogonal_c_slab : Slab → Slab

/-- Modelled from the spec: `SlabGenerator.get_slab()` returns one arbitrary
valid termination (§4.1 step 3). -/
def get_slab (lib : SlabGenLib) (gen : SlabGenParams) : Slab :=
  lib.get_slab_at gen (lib.default_shift gen)

/-- Modelled from the spec: `SlabGenerator.get_slabs(symmetrize=False)` returns
one slab per enumerated termination shift (§4.1 step 3). -/
def get_slabs (lib : SlabGenLib) (gen : SlabGenParams) : List Slab :=
  (lib.possible_shifts gen).map (lib.get_slab_at gen)

/-- `oriented_slab_replication` of `src/core/slab_generator.py` (lines 7-52):
orient the bulk along `(h,k,l)` with zero vacuum, replicate along the new
c-axis by `z_reps`, re-cut along `(0,0,1)` with vacuum, optionally
orthogonalize.  The `structure_.copy()` of the source is value-level identity
here (the aliasing discipline is verified separately on the heap model). -/
def oriented_slab_replication (lib : SlabGenLib) (structure_ : Structure)
    (h k l : Int) (z_reps : Nat) (min_vac : ℚ)
    (center_slab all_terminations force_ortho : Bool) :
    Except SlabError (List Slab) :=
  match mkSlabGenerator { initial_structure := structure_,
                          miller_index := (h, k, l), min_slab_size := 1,
                          min_vacuum_size := 0, center_slab := false } with
  | Except.error e => Except.error e
  | Except.ok orient_gen =>
    let oriented_slab := get_slab lib orient_gen
    let replicated := lib.make_supercell oriented_slab.struct z_reps
    match mkSlabGenerator { initial_structure := replicated,
                            miller_index := (0, 0, 1), min_slab_size := 1,
                            min_vacuum_size := min_vac,
                            center_slab := center_slab } with
    | Except.error e => Except.error e
    | Except.ok final_gen =>
      let slabs := if all_terminations then get_slabs lib final_gen
                   else [get_slab lib final_gen]
      Except.ok (if force_ortho then slabs.map lib.get_orthogonal_c_slab
                 else slabs)

/-- `cut_out_z_region` of `src/core/slab_generator.py` (lines 55-66): keep the
sites with Cartesian z in the closed interval `[zmin, zmax]`; `None` when no
site qualifies; otherwise re-append the kept sites into a fresh structure,
passing `properties=s.properties if s.properties else None` (an empty property
dict is passed as `None`, and an appended site with `properties=None` ends up
with an empty dict). -/
def cut_out_z_region (structure_ : Structure) (zmin zmax : ℚ) :
    Option Structure :=
  let new_sites := structure_.sites.filter fun site =>
    decide (zmin ≤ site.coords.z) && decide (site.coords.z ≤ zmax)
  if new_sites.isEmpty then none
  else some { lattice := structure_.lattice,
              sites := new_sites.map fun s =>
                { species := s.species, coords := s.coords,
                  properties := if s.properties.isEmpty then []
                                else s.properties } }

/-- `rotate_bottom_180` of `src/core/slab_generator.py` (lines 69-80): rotate
180° about the y-axis (negate the x and z Cartesian components) and re-append
each site into a fresh structure, without passing its properties. -/
def rotate_bottom_180 (structure_ : Structure) : Structure :=
  { lattice := structure_.lattice,
    sites := structure_.sites.map fun site =>
      { species := site.species,
        coords := { x := -site.coords.x, y := site.coords.y,
                    z := -site.coords.z },
        properties := [] } }

/-- Configuration of the external `StructureMatcher` as constructed by
`compare_structures`. -/
structure MatcherConfig where
  stol : ℚ
  angle_tol : ℚ
  primitive_cell : Bool
  attempt_supercell : Bool
deriving DecidableEq, Inhabited

/-- Modelled from the spec: the external pymatgen `StructureMatcher`
capability (missing from `src/`): an approximate equivalence test `fit` and an
RMSD report `get_rms_dist` returning `(rms, max_dist)` (§4.3). -/
structure MatcherLib where
  fit : MatcherConfig → Structure → Structure → Bool
  get_rms_dist : MatcherConfig → Structure → Structure → ℚ × ℚ

/-- `compare_structures` of `src/core/slab_generator.py` (lines 83-100):
`(False, None)` when either input is `None`; otherwise build the matcher with
the fixed tolerances and return `(True, rmsd)` on a fit, `(False, None)`
otherwise. -/
def compare_structures (lib : MatcherLib)
    (top_struct bottom_struct : Option Structure) : Bool × Option ℚ :=
  match top_struct, bottom_struct with
  | some t, some b =>
    let matcher : MatcherConfig :=
      { stol := 1/2, angle_tol := 5, primitive_cell := false,
        attempt_supercell := false }
    if lib.fit matcher t b then (true, some (lib.get_rms_dist matcher t b).1)
    else (false, none)
  | _, _ => (false, none)

/-- The minimum of the Cartesian z-coordinates of a structure's sites
(`z_min` in `extract_surface_regions`; junk value 0 for the empty site list,
on which the source's `min()` raises). -/
def zMinOf (slab : Structure) : ℚ :=
  match slab.sites.map (fun s => s.coords.z) with
  | [] => 0
  | z :: zs => zs.foldl min z

/-- The maximum of the Cartesian z-coordinates of a structure's sites
(`z_max` in `extract_surface_regions`). -/
def zMaxOf (slab : Structure) : ℚ :=
  match slab.sites.map (fun s => s.coords.z) with
  | [] => 0
  | z :: zs => zs.foldl max z

/-- `extract_surface_regions` of `src/core/slab_generator.py` (lines 103-113):
top band `[z_max − d, z_max]`, bottom band `[z_min, z_min + d]`, the bottom
rotated by 180° when present.  The outer `Option` models the `ValueError`
which `min`/`max` raise on a slab with no sites. -/
def extract_surface_regions (slab : Structure) (compare_depth : ℚ) :
    Option (Option Structure × Option Structure) :=
  if slab.sites.isEmpty then none
  else
    let z_min := zMinOf slab
    let z_max := zMaxOf slab
    let top_struct := cut_out_z_region slab (z_max - compare_depth) z_max
    let bottom_struct := cut_out_z_region slab z_min (z_min + compare_depth)
    some (top_struct, bottom_struct.map rotate_bottom_180)

/-- The legacy `oriented_slab_replication` of `src/main.py` (lines 35-92):
identical two-stage pipeline, except that step 4 builds the result list with
an explicit accumulating loop that conditionally orthogonalizes each slab. -/
def oriented_slab_replication_legacy (lib : SlabGenLib) (structure_ : Structure)
    (h k l : Int) (z_reps : Nat) (min_vac : ℚ)
    (center_slab all_terminations force_ortho : Bool) :
    Except SlabError (List Slab) :=
  match mkSlabGenerator { initial_structure := structure_,
                          miller_index := (h, k, l), min_slab_size := 1,
                          min_vacuum_size := 0, center_slab := false } with
  | Except.error e => Except.error e
  | Except.ok orient_gen =>
    let oriented_slab := get_slab lib orient_gen
    let replicated := lib.make_supercell oriented_slab.struct z_reps
    match mkSlabGenerator { initial_structure := replicated,
                            miller_index := (0, 0, 1), min_slab_size := 1,
                            min_vacuum_size := min_vac,
                            center_slab := center_slab } with
    | Except.error e => Except.error e
    | Except.ok final_gen =>
      let slabs := if all_terminations then get_slabs lib final_gen
                   else [get_slab lib final_gen]
      Except.ok (slabs.foldl
        (fun results s =>
          results ++ [if force_ortho then lib.get_orthogonal_c_slab s else s])
        [])

/-- Round-half-to-even on `ℚ` (the semantics of Python's `round` used by the
screener for display rounding). -/
def round_half_even (q : ℚ) : ℤ :=
  let f := ⌊q⌋
  let r := q - (f : ℚ)
  if r < 1/2 then f
  else if 1/2 < r then f + 1
  else if f % 2 = 0 then f else f + 1

/-- Python's `round(q, ndigits)` on the rational model. -/
def pyround (q : ℚ) (ndigits : Nat) : ℚ :=
  let p : ℚ := ((10 : ℚ) ^ ndigits)
  (round_half_even (q * p) : ℚ) / p

/-- `SurfaceScreener.__init__` state of `src/core/screening.py` (lines 8-15). -/
structure SurfaceScreener where
  structure_ : Structure
  max_index : Nat
  z_reps : Nat
  vacuum : ℚ
  center_slab : Bool
  force_ortho : Bool

/-- One entry of `self.failures` in `SurfaceScreener.screen` (line 49): the
offending Miller index and the stringified error. -/
structure ScreeningFailure where
  miller : Int × Int × Int
  error : String
deriving DecidableEq, Inhabited

/-- One result dict appended by `SurfaceScreener.screen` (lines 59-68). -/
structure ScreeningResult where
  miller : Int × Int × Int
  miller_str : String
  shift : ℚ
  num_atoms : Nat
  surface_area : ℚ
  is_symmetric : Option Bool
  formula : String
  slab : Slab
deriving DecidableEq, Inhabited

/-- External capabilities used by `SurfaceScreener.screen`.  Modelled from the
spec: `enumerateMiller` is pymatgen's
`get_symmetrically_distinct_miller_indices` (missing from `src/`); `build` is
the oriented slab builder as called at screening.py lines 39-47 (parametrized
over its outcome, since its geometric core is an external capability whose
errors — `SlabGenerationFailure` wrapping arbitrary library errors — the
screener must isolate, §4.4); `surface_area` and `reduced_formula` are the
external `Slab.surface_area` / `composition.reduced_formula` queries. -/
structure ScreenEnv where
  enumerateMiller : Structure → Nat → List (Int × Int × Int)
  build : Structure → Int → Int → Int → Nat → ℚ → Bool → Bool → Bool →
          Except String (List Slab)
  surface_area : Slab → ℚ
  reduced_formula : Slab → String

/-- The builder call of `SurfaceScreener.screen` (lines 39-47): the screener's
own parameters, `all_terminations=True`, on (a copy of) its structure. -/
def buildAt (env : ScreenEnv) (sc : SurfaceScreener) (m : Int × Int × Int) :
    Except String (List Slab) :=
  env.build sc.structure_ m.1 m.2.1 m.2.2 sc.z_reps sc.vacuum sc.center_slab
    true sc.force_ortho

/-- One result record as built at `SurfaceScreener.screen` lines 52-68:
`shift` is `getattr(slab, "shift", 0.0)` rounded to 4 decimals, the symmetry
flag is `None` when the external `is_symmetric` check raises. -/
def mkResult (env : ScreenEnv) (isSym : Slab → Except String Bool)
    (m : Int × Int × Int) (slab : Slab) : ScreeningResult :=
  { miller := m,
    miller_str := "(" ++ toString m.1 ++ "," ++ toString m.2.1 ++ ","
                  ++ toString m.2.2 ++ ")",
    shift := pyround slab.shift 4,
    num_atoms := slab.struct.sites.length,
    surface_area := pyround (env.surface_area slab) 2,
    is_symmetric := match isSym slab with
                    | Except.ok b => some b
                    | Except.error _ => none,
    formula := env.reduced_formula slab,
    slab := slab }

/-- The results contributed by one Miller index: one record per returned slab,
or nothing when the builder fails. -/
def resultsForIndex (env : ScreenEnv) (isSym : Slab → Except String Bool)
    (sc : SurfaceScreener) (m : Int × Int × Int) : List ScreeningResult :=
  match buildAt env sc m with
  | Except.ok slabs => slabs.map (mkResult env isSym m)
  | Except.error _ => []

/-- The failure record contributed by one Miller index, if any
(screening.py lines 48-50). -/
def failureFor (env : ScreenEnv) (sc : SurfaceScreener) (m : Int × Int × Int) :
    Option ScreeningFailure :=
  match buildAt env sc m with
  | Except.ok _ => none
  | Except.error e => some { miller := m, error := e }

/-- The body of the `for idx, (h, k, l) in enumerate(miller_indices)` loop of
`SurfaceScreener.screen` (lines 34-68), accumulating the results list, the
failures list and the trace of progress-callback invocations. -/
def screenLoop (env : ScreenEnv) (isSym : Slab → Except String Bool)
    (sc : SurfaceScreener) (total : Nat) :
    Nat → List (Int × Int × Int) →
    List ScreeningResult × List ScreeningFailure × List (Nat × Nat)
  | _, [] => ([], [], [])
  | idx, m :: rest =>
    let r := screenLoop env isSym sc total (idx + 1) rest
    match buildAt env sc m with
    | Except.error e =>
      (r.1, { miller := m, error := e } :: r.2.1, (idx, total) :: r.2.2)
    | Except.ok slabs =>
      (slabs.map (mkResult env isSym m) ++ r.1, r.2.1, (idx, total) :: r.2.2)

/-- The Miller indices enumerated by `SurfaceScreener.screen` (lines 27-29). -/
def screenMillers (env : ScreenEnv) (sc : SurfaceScreener) :
    List (Int × Int × Int) :=
  env.enumerateMiller sc.structure_ sc.max_index

/-- `SurfaceScreener.screen` of `src/core/screening.py` (lines 17-76):
returns `(results, failures, callback trace)`; the trace records the
arguments of every invocation of a supplied progress callback, including the
final `(total, total)` call (lines 70-71).  The function is total: no
exception escapes the screening call. -/
def screen (env : ScreenEnv) (isSym : Slab → Except String Bool)
    (sc : SurfaceScreener) :
    List ScreeningResult × List ScreeningFailure × List (Nat × Nat) :=
  let millers := screenMillers env sc
  let total := millers.length
  let r := screenLoop env isSym sc total 0 millers
  (r.1, r.2.1, r.2.2 ++ [(total, total)])

/-- The expected callback trace of a run over `n` indices starting at `idx`:
`(idx, total), (idx+1, total), …`. -/
def progressTrace (total : Nat) : Nat → Nat → List (Nat × Nat)
  | _, 0 => []
  | idx, n + 1 => (idx, total) :: progressTrace total (idx + 1) n

/-- A heap of structure objects: Python object identity is modelled as an
index into the heap, so that in-place mutation and defensive copying can be
distinguished. -/
abbrev Heap : Type := List Structure

/-- Dereference a heap cell. -/
def heapRead : Heap → Nat → Structure
  | [], _ => default
  | s :: _, 0 => s
  | _ :: rest, n + 1 => heapRead rest n

/-- Overwrite a heap cell in place (Python in-place mutation such as
`make_supercell`). -/
def heapWrite : Heap → Nat → Structure → Heap
  | [], _, _ => []
  | _ :: rest, 0, t => t :: rest
  | s :: rest, n + 1, t => s :: heapWrite rest n t

/-- Allocate a fresh object (Python object construction / `.copy()`). -/
def heapAlloc (h : Heap) (s : Structure) : Heap × Nat :=
  (h ++ [s], h.length)

/-- Heap-level `oriented_slab_replication`: the caller's structure lives at
ref `r`; `structure.copy()` allocates a fresh cell; `get_slab` allocates the
oriented slab as a fresh object; `make_supercell([1, 1, z_reps])` is the one
in-place mutation, applied to the builder's own oriented working copy; the
final slabs are fresh values. -/
def oriented_slab_replication_heap (lib : SlabGenLib) (heap : Heap) (r : Nat)
    (h k l : Int) (z_reps : Nat) (min_vac : ℚ)
    (center_slab all_terminations force_ortho : Bool) :
    Heap × Except SlabError (List Slab) :=
  let copied := heapAlloc heap (heapRead heap r)
  match mkSlabGenerator { initial_structure := heapRead copied.1 copied.2,
                          miller_index := (h, k, l), min_slab_size := 1,
                          min_vacuum_size := 0, center_slab := false } with
  | Except.error e => (copied.1, Except.error e)
  | Except.ok orient_gen =>
    let oriented := heapAlloc copied.1 (get_slab lib orient_gen).struct
    let mutated := heapWrite oriented.1 oriented.2
      (lib.make_supercell (heapRead oriented.1 oriented.2) z_reps)
    match mkSlabGenerator { initial_structure := heapRead mutated oriented.2,
                            miller_index := (0, 0, 1), min_slab_size := 1,
                            min_vacuum_size := min_vac,
                            center_slab := center_slab } with
    | Except.error e => (mutated, Except.error e)
    | Except.ok final_gen =>
      let slabs := if all_terminations then get_slabs lib final_gen
                   else [get_slab lib final_gen]
      (mutated, Except.ok (if force_ortho then
                             slabs.map lib.get_orthogonal_c_slab
                           else slabs))

/-- Heap-level `cut_out_z_region`: reads the input, allocates the new
structure (if any); no write to any existing cell. -/
def cut_out_z_region_heap (heap : Heap) (r : Nat) (zmin zmax : ℚ) :
    Heap × Option Nat :=
  match cut_out_z_region (heapRead heap r) zmin zmax with
  | none => (heap, none)
  | some t => ((heapAlloc heap t).1, some (heapAlloc heap t).2)

/-- Heap-level `rotate_bottom_180`: reads the input, allocates the rotated
structure; no write to any existing cell. -/
def rotate_bottom_180_heap (heap : Heap) (r : Nat) : Heap × Nat :=
  heapAlloc heap (rotate_bottom_180 (heapRead heap r))

/-- Heap-level `extract_surface_regions`: two region cuts on the input slab,
then a rotation of the bottom region object. -/
def extract_surface_regions_heap (heap : Heap) (r : Nat) (compare_depth : ℚ) :
    Heap × Option (Option Nat × Option Nat) :=
  let slab := heapRead heap r
  if slab.sites.isEmpty then (heap, none)
  else
    let top := cut_out_z_region_heap heap r (zMaxOf slab - compare_depth)
      (zMaxOf slab)
    let bottom := cut_out_z_region_heap top.1 r (zMinOf slab)
      (zMinOf slab + compare_depth)
    match bottom.2 with
    | none => (bottom.1, some (top.2, none))
    | some rb =>
      let rot := rotate_bottom_180_heap bottom.1 rb
      (rot.1, some (top.2, some rot.2))

/-- A result record with its symmetry flag forgotten (used to state that the
screening batch is unaffected by symmetry-check outcomes). -/
def stripSym (r : ScreeningResult) : ScreeningResult :=
  { r with is_symmetric := none }

/-- A concrete cubic lattice for witnesses. -/
def latt0 : CrystalLattice :=
  { a := { x := 1, y := 0, z := 0 }, b := { x := 0, y := 1, z := 0 },
    c := { x := 0, y := 0, z := 1 } }

/-- A concrete two-site bulk structure. -/
def exBulk : Structure :=
  { lattice := latt0,
    sites := [{ species := "Mo", coords := { x := 0, y := 0, z := 0 },
                properties := [] },
              { species := "C", coords := { x := 0, y := 0, z := 2 },
                properties := [] }] }

/-- A concrete one-site slab. -/
def exSlab1 : Structure :=
  { lattice := latt0,
    sites := [{ species := "Mo", coords := { x := 0, y := 0, z := 0 },
                properties := [] }] }

/-- A concrete slab whose first site carries a selective-dynamics property. -/
def exSlabP : Structure :=
  { lattice := latt0,
    sites := [{ species := "Mo", coords := { x := 0, y := 0, z := 0 },
                properties := [("selective_dynamics", "T T T")] },
              { species := "C", coords := { x := 0, y := 0, z := 0 },
                properties := [] }] }

/-- A concrete instantiation of the modelled external `SlabGenerator`
capability. -/
def trivLib : SlabGenLib :=
  { get_slab_at := fun p s =>
      { struct := p.initial_structure, miller_index := p.miller_index,
        shift := s },
    possible_shifts := fun _ => [0],
    default_shift := fun _ => 0,
    default_shift_mem := fun _ => List.mem_singleton.mpr rfl,
    make_supercell := fun s _ => s,
    get_orthogonal_c_slab := fun s => s }

/-- A concrete matcher that always fits with zero RMSD. -/
def exMatchLib : MatcherLib :=
  { fit := fun _ _ _ => true, get_rms_dist := fun _ _ _ => (0, 0) }

/-- A concrete matcher that never fits. -/
def exMatchLib2 : MatcherLib :=
  { fit := fun _ _ _ => false, get_rms_dist := fun _ _ _ => (1, 1) }

/-- A concrete slab value. -/
def exSlab0 : Slab :=
  { struct := exBulk, miller_index := (1, 0, 0), shift := 0 }

/-- A concrete screening environment in which the builder fails exactly for
Miller index `(0,1,0)`. -/
def exEnv : ScreenEnv :=
  { enumerateMiller := fun _ _ => [(1, 0, 0), (0, 1, 0), (1, 1, 1)],
    build := fun _ h k l _ _ _ _ _ =>
      if (h, k, l) = ((0 : Int), (1 : Int), (0 : Int)) then
        Except.error "boom"
      else Except.ok [exSlab0],
    surface_area := fun _ => 1,
    reduced_formula := fun _ => "Mo2C" }

/-- A concrete symmetry check that always succeeds. -/
def exSym : Slab → Except String Bool := fun _ => Except.ok true

/-- A concrete symmetry check that always raises. -/
def exSymFail : Slab → Except String Bool := fun _ => Except.error "sym boom"

/-- A concrete screener. -/
def exSc : SurfaceScreener :=
  { structure_ := exBulk, max_index := 1, z_reps := 2, vacuum := 10,
    center_slab := false, force_ortho := false }

theorem isEmpty_false_of_ne_nil {α : Type} (l : List α) (h : l ≠ []) :
    l.isEmpty = false := by
  cases l with
  | nil => exact absurd rfl h
  | cons a t => rfl

theorem foldl_min_le_init (zs : List ℚ) : ∀ z : ℚ, zs.foldl min z ≤ z := by
  induction zs with
  | nil => intro z; simp
  | cons a t ih =>
    intro z
    simp only [List.foldl_cons]
    exact le_trans (ih (min z a)) (min_le_left z a)

theorem foldl_min_le_mem (zs : List ℚ) :
    ∀ z x : ℚ, x ∈ z :: zs → zs.foldl min z ≤ x := by
  induction zs with
  | nil =>
    intro z x hx
    simp only [List.mem_singleton] at hx
    simp [hx]
  | cons a t ih =>
    intro z x hx
    simp only [List.foldl_cons]
    rcases List.mem_cons.mp hx with h1 | h2
    · subst h1
      exact le_trans (foldl_min_le_init t (min x a)) (min_le_left _ _)
    · rcases List.mem_cons.mp h2 with h3 | h4
      · subst h3
        exact le_trans (foldl_min_le_init t (min z x)) (min_le_right _ _)
      · exact ih (min z a) x (List.mem_cons_of_mem _ h4)

theorem foldl_min_mem (zs : List ℚ) : ∀ z : ℚ, zs.foldl min z ∈ z :: zs := by
  induction zs with
  | nil => intro z; simp
  | cons a t ih =>
    intro z
    simp only [List.foldl_cons]
    rcases List.mem_cons.mp (ih (min z a)) with h1 | h2
    · rw [h1]
      rcases min_choice z a with hm | hm
      · rw [hm]; exact List.mem_cons_self _ _
      · rw [hm]; exact List.mem_cons_of_mem _ (List.mem_cons_self _ _)
    · exact List.mem_cons_of_mem _ (List.mem_cons_of_mem _ h2)

theorem le_foldl_max_init (zs : List ℚ) : ∀ z : ℚ, z ≤ zs.foldl max z := by
  induction zs with
  | nil => intro z; simp
  | cons a t ih =>
    intro z
    simp only [List.foldl_cons]
    exact le_trans (le_max_left z a) (ih (max z a))

theorem le_foldl_max_mem (zs : List ℚ) :
    ∀ z x : ℚ, x ∈ z :: zs → x ≤ zs.foldl max z := by
  induction zs with
  | nil =>
    intro z x hx
    simp only [List.mem_singleton] at hx
    simp [hx]
  | cons a t ih =>
    intro z x hx
    simp only [List.foldl_cons]
    rcases List.mem_cons.mp hx with h1 | h2
    · subst h1
      exact le_trans (le_max_left x a) (le_foldl_max_init t (max x a))
    · rcases List.mem_cons.mp h2 with h3 | h4
      · subst h3
        exact le_trans (le_max_right z x) (le_foldl_max_init t (max z x))
      · exact ih (max z a) x (List.mem_cons_of_mem _ h4)

theorem foldl_max_mem (zs : List ℚ) : ∀ z : ℚ, zs.foldl max z ∈ z :: zs := by
  induction zs with
  | nil => intro z; simp
  | cons a t ih =>
    intro z
    simp only [List.foldl_cons]
    rcases List.mem_cons.mp (ih (max z a)) with h1 | h2
    · rw [h1]
      rcases max_choice z a with hm | hm
      · rw [hm]; exact List.mem_cons_self _ _
      · rw [hm]; exact List.mem_cons_of_mem _ (List.mem_cons_self _ _)
    · exact List.mem_cons_of_mem _ (List.mem_cons_of_mem _ h2)

theorem zMinOf_le_of_mem (slab : Structure) (s : AtomSite)
    (hs : s ∈ slab.sites) : zMinOf slab ≤ s.coords.z := by
  cases hmem : slab.sites with
  | nil => rw [hmem] at hs; cases hs
  | cons s0 rest =>
    have heq : zMinOf slab =
        (rest.map fun t => t.coords.z).foldl min s0.coords.z := by
      simp [zMinOf, hmem]
    rw [heq]
    apply foldl_min_le_mem
    rw [hmem] at hs
    rcases List.mem_cons.mp hs with h1 | h2
    · rw [h1]; exact List.mem_cons_self _ _
    · exact List.mem_cons_of_mem _ (List.mem_map_of_mem _ h2)

theorem le_zMaxOf_of_mem (slab : Structure) (s : AtomSite)
    (hs : s ∈ slab.sites) : s.coords.z ≤ zMaxOf slab := by
  cases hmem : slab.sites with
  | nil => rw [hmem] at hs; cases hs
  | cons s0 rest =>
    have heq : zMaxOf slab =
        (rest.map fun t => t.coords.z).foldl max s0.coords.z := by
      simp [zMaxOf, hmem]
    rw [heq]
    apply le_foldl_max_mem
    rw [hmem] at hs
    rcases List.mem_cons.mp hs with h1 | h2
    · rw [h1]; exact List.mem_cons_self _ _
    · exact List.mem_cons_of_mem _ (List.mem_map_of_mem _ h2)

theorem exists_site_zMinOf (slab : Structure) (h : slab.sites ≠ []) :
    ∃ s ∈ slab.sites, s.coords.z = zMinOf slab := by
  cases hmem : slab.sites with
  | nil => exact absurd hmem h
  | cons s0 rest =>
    have heq : zMinOf slab =
        (rest.map fun t => t.coords.z).foldl min s0.coords.z := by
      simp [zMinOf, hmem]
    have hmm := foldl_min_mem (rest.map fun t => t.coords.z) s0.coords.z
    rw [← heq] at hmm
    have : zMinOf slab ∈ slab.sites.map fun t => t.coords.z := by
      rw [hmem]; simpa using hmm
    rcases List.mem_map.mp this with ⟨s, hsmem, hz⟩
    rw [hmem] at hsmem
    exact ⟨s, hsmem, hz⟩

theorem exists_site_zMaxOf (slab : Structure) (h : slab.sites ≠ []) :
    ∃ s ∈ slab.sites, s.coords.z = zMaxOf slab := by
  cases hmem : slab.sites with
  | nil => exact absurd hmem h
  | cons s0 rest =>
    have heq : zMaxOf slab =
        (rest.map fun t => t.coords.z).foldl max s0.coords.z := by
      simp [zMaxOf, hmem]
    have hmm := foldl_max_mem (rest.map fun t => t.coords.z) s0.coords.z
    rw [← heq] at hmm
    have : zMaxOf slab ∈ slab.sites.map fun t => t.coords.z := by
      rw [hmem]; simpa using hmm
    rcases List.mem_map.mp this with ⟨s, hsmem, hz⟩
    rw [hmem] at hsmem
    exact ⟨s, hsmem, hz⟩

theorem cutSite_eq (s : AtomSite) :
    ({ species := s.species, coords := s.coords,
       properties := if s.properties.isEmpty then [] else s.properties } :
      AtomSite) = s := by
  cases s with
  | mk sp c props => cases props <;> rfl

theorem map_cutSite_id (l : List AtomSite) :
    (l.map fun s =>
      ({ species := s.species, coords := s.coords,
         properties := if s.properties.isEmpty then [] else s.properties } :
        AtomSite)) = l := by
  induction l with
  | nil => rfl
  | cons a t ih => rw [List.map_cons, cutSite_eq, ih]

theorem cut_out_z_region_of_all (st : Structure) (zmin zmax : ℚ)
    (hne : st.sites ≠ [])
    (hall : ∀ s ∈ st.sites, zmin ≤ s.coords.z ∧ s.coords.z ≤ zmax) :
    cut_out_z_region st zmin zmax = some st := by
  have hfil : (st.sites.filter fun site =>
      decide (zmin ≤ site.coords.z) && decide (site.coords.z ≤ zmax)) =
      st.sites := by
    apply List.filter_eq_self.mpr
    intro a ha
    have h := hall a ha
    simp [h.1, h.2]
  simp only [cut_out_z_region, hfil, isEmpty_false_of_ne_nil _ hne,
    Bool.false_eq_true, if_false, map_cutSite_id]

theorem cut_out_z_region_some (st : Structure) (zmin zmax : ℚ) (t : Structure)
    (h : cut_out_z_region st zmin zmax = some t) :
    t.lattice = st.lattice ∧
    t.sites = st.sites.filter fun site =>
      decide (zmin ≤ site.coords.z) && decide (site.coords.z ≤ zmax) := by
  simp only [cut_out_z_region] at h
  split at h
  · cases h
  · rw [Option.some_inj] at h
    rw [← h]
    exact ⟨rfl, map_cutSite_id _⟩

theorem heapRead_append (h : Heap) (l2 : List Structure) (r : Nat)
    (hr : r < h.length) : heapRead (h ++ l2) r = heapRead h r := by
  induction h generalizing r with
  | nil => cases hr
  | cons s t ih =>
    cases r with
    | zero => rfl
    | succ n =>
      simp only [List.cons_append, heapRead]
      exact ih n (Nat.lt_of_succ_lt_succ (by simpa using hr))

theorem heapRead_write_ne (h : Heap) (w r : Nat) (t : Structure)
    (hne : r ≠ w) : heapRead (heapWrite h w t) r = heapRead h r := by
  induction h generalizing w r with
  | nil => rfl
  | cons s rest ih =>
    cases w with
    | zero =>
      cases r with
      | zero => exact absurd rfl hne
      | succ n => rfl
    | succ m =>
      cases r with
      | zero => rfl
      | succ n =>
        simp only [heapWrite, heapRead]
        exact ih m n (fun hh => hne (by rw [hh]))

theorem heapWrite_length (h : Heap) (w : Nat) (t : Structure) :
    (heapWrite h w t).length = h.length := by
  induction h generalizing w with
  | nil => rfl
  | cons s rest ih =>
    cases w with
    | zero => rfl
    | succ m => simp only [heapWrite, List.length_cons, ih]

theorem cut_heap_preserve (heap : Heap) (r0 : Nat) (zmin zmax : ℚ) (r : Nat)
    (hr : r < heap.length) :
    heapRead ((cut_out_z_region_heap heap r0 zmin zmax).1) r =
      heapRead heap r ∧
    heap.length ≤ ((cut_out_z_region_heap heap r0 zmin zmax).1).length := by
  unfold cut_out_z_region_heap
  cases hc : cut_out_z_region (heapRead heap r0) zmin zmax with
  | none => exact ⟨rfl, le_refl _⟩
  | some t =>
    refine ⟨heapRead_append heap [t] r hr, ?_⟩
    simp [heapAlloc]

theorem screenLoop_results (env : ScreenEnv) (isSym : Slab → Except String Bool)
    (sc : SurfaceScreener) (total : Nat) (ms : List (Int × Int × Int)) :
    ∀ idx, (screenLoop env isSym sc total idx ms).1 =
      ms.flatMap (resultsForIndex env isSym sc) := by
  induction ms with
  | nil => intro idx; rfl
  | cons m rest ih =>
    intro idx
    simp only [screenLoop, List.flatMap_cons, resultsForIndex]
    cases hb : buildAt env sc m with
    | error e => simp [hb, ih (idx + 1)]
    | ok slabs => simp [hb, ih (idx + 1)]

theorem screenLoop_failures (env : ScreenEnv)
    (isSym : Slab → Except String Bool) (sc : SurfaceScreener) (total : Nat)
    (ms : List (Int × Int × Int)) :
    ∀ idx, (screenLoop env isSym sc total idx ms).2.1 =
      ms.filterMap (failureFor env sc) := by
  induction ms with
  | nil => intro idx; rfl
  | cons m rest ih =>
    intro idx
    simp only [screenLoop, List.filterMap_cons, failureFor]
    cases hb : buildAt env sc m with
    | error e => simp [hb, ih (idx + 1)]
    | ok slabs => simp [hb, ih (idx + 1)]

theorem screenLoop_trace (env : ScreenEnv) (isSym : Slab → Except String Bool)
    (sc : SurfaceScreener) (total : Nat) (ms : List (Int × Int × Int)) :
    ∀ idx, (screenLoop env isSym sc total idx ms).2.2 =
      progressTrace total idx ms.length := by
  induction ms with
  | nil => intro idx; rfl
  | cons m rest ih =>
    intro idx
    simp only [screenLoop, List.length_cons, progressTrace]
    cases hb : buildAt env sc m with
    | error e => simp [hb, ih (idx + 1)]
    | ok slabs => simp [hb, ih (idx + 1)]

theorem progressTrace_eq_range (total : Nat) (n : Nat) :
    ∀ idx, progressTrace total idx n =
      (List.range n).map fun i => (idx + i, total) := by
  induction n with
  | zero => intro idx; rfl
  | succ k ih =>
    intro idx
    rw [List.range_succ_eq_map]
    simp only [progressTrace, List.map_cons, Nat.add_zero, List.map_map]
    refine congrArg (fun t => (idx, total) :: t) ?_
    rw [ih (idx + 1)]
    apply List.map_congr_left
    intro a _
    simp [Function.comp]
    omega

theorem progressTrace_length (total : Nat) (n : Nat) :
    ∀ idx, (progressTrace total idx n).length = n := by
  induction n with
  | zero => intro idx; rfl
  | succ k ih => intro idx; simp only [progressTrace, List.length_cons, ih]

theorem filterMap_failureFor_nil (env : ScreenEnv) (sc : SurfaceScreener)
    (l : List (Int × Int × Int))
    (hok : ∀ m ∈ l, ∃ slabs, buildAt env sc m = Except.ok slabs) :
    l.filterMap (failureFor env sc) = [] := by
  induction l with
  | nil => rfl
  | cons m rest ih =>
    rcases hok m (List.mem_cons_self _ _) with ⟨slabs, hb⟩
    simp only [List.filterMap_cons, failureFor, hb]
    exact ih (fun m' hm' => hok m' (List.mem_cons_of_mem _ hm'))

theorem foldl_append_singleton (f : Slab → Slab) (l : List Slab) :
    ∀ acc, l.foldl (fun results s => results ++ [f s]) acc = acc ++ l.map f := by
  induction l with
  | nil => intro acc; simp
  | cons a t ih =>
    intro acc
    simp only [List.foldl_cons, List.map_cons]
    rw [ih]
    simp

theorem get_slab_mem_get_slabs (lib : SlabGenLib) (gen : SlabGenParams) :
    get_slab lib gen ∈ get_slabs lib gen :=
  List.mem_map_of_mem _ (lib.default_shift_mem gen)

/-- Claim C1: for every bulk structure and every call of the slab build
operation with Miller index `(0,0,0)`, the build fails with
`InvalidMillerIndex` — the result is `error invalidMillerIndex`, so zero slabs
are produced — and it fails before any geometry is attempted: the outcome does
not depend on the external geometry capability at all (same result for any two
capability records). -/
theorem spec_C1 (lib lib2 : SlabGenLib) (structure_ : Structure) (z_reps : Nat)
    (min_vac : ℚ) (center_slab all_terminations force_ortho : Bool) :
    oriented_slab_replication lib structure_ 0 0 0 z_reps min_vac center_slab
        all_terminations force_ortho =
      Except.error SlabError.invalidMillerIndex ∧
    oriented_slab_replication lib structure_ 0 0 0 z_reps min_vac center_slab
        all_terminations force_ortho =
      oriented_slab_replication lib2 structure_ 0 0 0 z_reps min_vac
        center_slab all_terminations force_ortho := by
  constructor <;> simp [oriented_slab_replication, mkSlabGenerator]

/-- Claim C5: `compare_structures` returns `(False, None)` whenever either
input is absent, without invoking the underlying matcher (the result is the
same for every matcher capability); and the returned rmsd is non-`None` only
when the returned `is_match` is true. -/
theorem spec_C5 :
    (∀ (lib lib2 : MatcherLib) (t b : Option Structure),
        t = none ∨ b = none →
        compare_structures lib t b = (false, none) ∧
        compare_structures lib t b = compare_structures lib2 t b) ∧
    (∀ (lib : MatcherLib) (t b : Option Structure),
        (compare_structures lib t b).2.isSome = true →
        (compare_structures lib t b).1 = true) := by
  constructor
  · intro lib lib2 t b hnone
    rcases hnone with hh | hh <;> subst hh
    · cases b <;> exact ⟨rfl, rfl⟩
    · cases t <;> exact ⟨rfl, rfl⟩
  · intro lib t b hsome
    cases t with
    | none => simp [compare_structures] at hsome
    | some tv =>
      cases b with
      | none => simp [compare_structures] at hsome
      | some bv =>
        simp only [compare_structures] at hsome ⊢
        split at hsome
        next hcond => rw [hcond]; simp
        next hcond => simp at hsome

/-- Witness for C5 at concrete inputs: an absent top region short-circuits for
two different matchers, and a present rmsd comes with `is_match = true`. -/
theorem spec_C5_witness :
    (compare_structures exMatchLib none (some exBulk) = (false, none) ∧
     compare_structures exMatchLib none (some exBulk) =
       compare_structures exMatchLib2 none (some exBulk)) ∧
    (compare_structures exMatchLib (some exBulk) (some exBulk)).1 = true :=
  ⟨spec_C5.1 exMatchLib exMatchLib2 none (some exBulk) (Or.inl rfl),
   spec_C5.2 exMatchLib (some exBulk) (some exBulk) rfl⟩

/-- Claim C9: the legacy copy of the slab pipeline in `src/main.py` returns
the same list of slabs as the core implementation in
`src/core/slab_generator.py` for identical arguments (including identical
external geometry capability). -/
theorem spec_C9 (lib : SlabGenLib) (structure_ : Structure) (h k l : Int)
    (z_reps : Nat) (min_vac : ℚ)
    (center_slab all_terminations force_ortho : Bool) :
    oriented_slab_replication_legacy lib structure_ h k l z_reps min_vac
      center_slab all_terminations force_ortho =
    oriented_slab_replication lib structure_ h k l z_reps min_vac
      center_slab all_terminations force_ortho := by
  simp only [oriented_slab_replication, oriented_slab_replication_legacy]
  rcases h1 : mkSlabGenerator { initial_structure := structure_, miller_index := (h, k, l), min_slab_size := 1, min_vacuum_size := 0, center_slab := false } with e1 | og
  · simp [h1]
  · simp only [h1]
    rcases h2 : mkSlabGenerator { initial_structure := lib.make_supercell (get_slab lib og).struct z_reps, miller_index := (0, 0, 1), min_slab_size := 1, min_vacuum_size := min_vac, center_slab := center_slab } with e2 | fg
    · simp [h2]
    · simp only [h2]
      cases force_ortho <;> simp [foldl_append_singleton]

/-- Claim C4: with a valid (non-zero) Miller index, the build with
`all_terminations=false` returns exactly one slab, and that slab's shift
equals the shift of some slab in the `all_terminations=true` result for
identical other parameters. -/
theorem spec_C4 (lib : SlabGenLib) (structure_ : Structure) (h k l : Int)
    (z_reps : Nat) (min_vac : ℚ) (center_slab force_ortho : Bool)
    (hnz : (h, k, l) ≠ ((0 : Int), (0 : Int), (0 : Int))) :
    ∃ s slabsAll,
      oriented_slab_replication lib structure_ h k l z_reps min_vac
        center_slab false force_ortho = Except.ok [s] ∧
      oriented_slab_replication lib structure_ h k l z_reps min_vac
        center_slab true force_ortho = Except.ok slabsAll ∧
      ∃ t ∈ slabsAll, s.shift = t.shift := by
  have h001 : ((0 : Int), (0 : Int), (1 : Int)) ≠
      ((0 : Int), (0 : Int), (0 : Int)) := by decide
  simp only [oriented_slab_replication, mkSlabGenerator, if_neg hnz,
    if_neg h001]
  cases force_ortho with
  | false =>
    refine ⟨_, _, rfl, rfl, get_slab lib _, get_slab_mem_get_slabs lib _, rfl⟩
  | true =>
    refine ⟨_, _, rfl, rfl,
      lib.get_orthogonal_c_slab (get_slab lib _),
      List.mem_map_of_mem _ (get_slab_mem_get_slabs lib _), rfl⟩

/-- Witness for C4 at a concrete bulk, Miller index `(1,0,0)` and a concrete
geometry capability. -/
theorem spec_C4_witness :
    ((1 : Int), (0 : Int), (0 : Int)) ≠ ((0 : Int), (0 : Int), (0 : Int)) ∧
    ∃ s slabsAll,
      oriented_slab_replication trivLib exBulk 1 0 0 2 10 false false false =
        Except.ok [s] ∧
      oriented_slab_replication trivLib exBulk 1 0 0 2 10 false true false =
        Except.ok slabsAll ∧
      ∃ t ∈ slabsAll, s.shift = t.shift :=
  ⟨by decide, spec_C4 trivLib exBulk 1 0 0 2 10 false false (by decide)⟩

theorem cut_out_z_region_isSome (st : Structure) (zmin zmax : ℚ) (s : AtomSite)
    (hs : s ∈ st.sites) (h1 : zmin ≤ s.coords.z) (h2 : s.coords.z ≤ zmax) :
    ∃ t, cut_out_z_region st zmin zmax = some t := by
  have hmem : s ∈ st.sites.filter fun site =>
      decide (zmin ≤ site.coords.z) && decide (site.coords.z ≤ zmax) :=
    List.mem_filter.mpr ⟨hs, by simp [h1, h2]⟩
  have hne : (st.sites.filter fun site =>
      decide (zmin ≤ site.coords.z) && decide (site.coords.z ≤ zmax)) ≠ [] :=
    List.ne_nil_of_mem hmem
  simp only [cut_out_z_region, isEmpty_false_of_ne_nil _ hne,
    Bool.false_eq_true, if_false]
  exact ⟨_, rfl⟩

/-- Claim C3, amended.  For every slab with at least one site: when
`compare_depth` is at least the total slab thickness, both the top region and
the (rotated) bottom region contain all sites of the slab.  When
`compare_depth = 0` the two regions are NOT `None` (contrary to the original
claim): the closed-interval z-test keeps the extreme sites, so the top region
consists exactly of the slab's sites at `z_max` and the bottom region exactly
of the slab's sites at `z_min` (membership both ways), both non-empty. -/
theorem spec_C3 (slab : Structure) (d : ℚ) (hne : slab.sites ≠ []) :
    (zMaxOf slab - zMinOf slab ≤ d →
      extract_surface_regions slab d =
        some (some slab, some (rotate_bottom_180 slab))) ∧
    (∃ T B,
      extract_surface_regions slab 0 =
        some (some T, some (rotate_bottom_180 B)) ∧
      T.sites ≠ [] ∧ B.sites ≠ [] ∧
      (∀ s, s ∈ T.sites ↔ s ∈ slab.sites ∧ s.coords.z = zMaxOf slab) ∧
      (∀ s, s ∈ B.sites ↔ s ∈ slab.sites ∧ s.coords.z = zMinOf slab)) := by
  constructor
  · intro hd
    have htop : cut_out_z_region slab (zMaxOf slab - d) (zMaxOf slab) =
        some slab := by
      apply cut_out_z_region_of_all _ _ _ hne
      intro s hs
      have hmin := zMinOf_le_of_mem slab s hs
      have hmax := le_zMaxOf_of_mem slab s hs
      constructor
      · linarith
      · exact hmax
    have hbot : cut_out_z_region slab (zMinOf slab) (zMinOf slab + d) =
        some slab := by
      apply cut_out_z_region_of_all _ _ _ hne
      intro s hs
      have hmin := zMinOf_le_of_mem slab s hs
      have hmax := le_zMaxOf_of_mem slab s hs
      constructor
      · exact hmin
      · linarith
    simp only [extract_surface_regions, isEmpty_false_of_ne_nil _ hne,
      Bool.false_eq_true, if_false, htop, hbot]
    rfl
  · obtain ⟨smax, hsmax, hzmax⟩ := exists_site_zMaxOf slab hne
    obtain ⟨smin, hsmin, hzmin⟩ := exists_site_zMinOf slab hne
    obtain ⟨T, hT⟩ := cut_out_z_region_isSome slab (zMaxOf slab - 0)
      (zMaxOf slab) smax hsmax (by rw [hzmax]; simp) (by rw [hzmax])
    obtain ⟨B, hB⟩ := cut_out_z_region_isSome slab (zMinOf slab)
      (zMinOf slab + 0) smin hsmin (by rw [hzmin]) (by rw [hzmin]; simp)
    refine ⟨T, B, ?_, ?_, ?_, ?_, ?_⟩
    · simp only [extract_surface_regions, isEmpty_false_of_ne_nil _ hne,
        Bool.false_eq_true, if_false, hT, hB]
      rfl
    · have hh := (cut_out_z_region_some _ _ _ _ hT).2
      apply List.ne_nil_of_mem (a := smax)
      rw [hh]
      exact List.mem_filter.mpr ⟨hsmax, by simp [hzmax]⟩
    · have hh := (cut_out_z_region_some _ _ _ _ hB).2
      apply List.ne_nil_of_mem (a := smin)
      rw [hh]
      exact List.mem_filter.mpr ⟨hsmin, by simp [hzmin]⟩
    · intro s
      have hh := (cut_out_z_region_some _ _ _ _ hT).2
      rw [hh, List.mem_filter]
      constructor
      · rintro ⟨hmem, hp⟩
        simp only [Bool.and_eq_true, decide_eq_true_eq, sub_zero] at hp
        exact ⟨hmem, le_antisymm hp.2 hp.1⟩
      · rintro ⟨hmem, hz⟩
        refine ⟨hmem, ?_⟩
        simp only [Bool.and_eq_true, decide_eq_true_eq, sub_zero, hz]
        exact ⟨le_refl _, le_refl _⟩
    · intro s
      have hh := (cut_out_z_region_some _ _ _ _ hB).2
      rw [hh, List.mem_filter]
      constructor
      · rintro ⟨hmem, hp⟩
        simp only [Bool.and_eq_true, decide_eq_true_eq, add_zero] at hp
        exact ⟨hmem, le_antisymm hp.2 hp.1⟩
      · rintro ⟨hmem, hz⟩
        refine ⟨hmem, ?_⟩
        simp only [Bool.and_eq_true, decide_eq_true_eq, add_zero, hz]
        exact ⟨le_refl _, le_refl _⟩

/-- Counterexample for C3 as originally stated: on a one-site slab and
`compare_depth = 0`, the regions are not `(None, None)` — both come back as
structures holding the extreme site. -/
theorem spec_C3_counterexample :
    extract_surface_regions exSlab1 0 =
      some (some exSlab1, some (rotate_bottom_180 exSlab1)) ∧
    extract_surface_regions exSlab1 0 ≠ some (none, none) := by
  have hmax : zMaxOf exSlab1 = 0 := rfl
  have hmin : zMinOf exSlab1 = 0 := rfl
  have hemp : exSlab1.sites.isEmpty = false := rfl
  have hcut : cut_out_z_region exSlab1 0 0 = some exSlab1 := rfl
  have hx : extract_surface_regions exSlab1 0 =
      some (some exSlab1, some (rotate_bottom_180 exSlab1)) := by
    simp only [extract_surface_regions, hmax, hmin, sub_zero, add_zero, hemp,
      Bool.false_eq_true, if_false, hcut]
    rfl
  exact ⟨hx, by rw [hx]; simp⟩

/-- Witness for C3 (amended) at a concrete one-site slab with depth 0 equal
to its thickness 0. -/
theorem spec_C3_witness :
    exSlab1.sites ≠ [] ∧ zMaxOf exSlab1 - zMinOf exSlab1 ≤ 0 ∧
    extract_surface_regions exSlab1 0 =
      some (some exSlab1, some (rotate_bottom_180 exSlab1)) :=
  ⟨by simp [exSlab1], by show (0 : ℚ) - 0 ≤ 0; simp,
   (spec_C3 exSlab1 0 (by simp [exSlab1])).1 (by show (0 : ℚ) - 0 ≤ 0; simp)⟩

/-- Claim C10: whenever `extract_surface_regions` returns both regions, every
site of the top region is literally a site of the input slab (properties
included — they are preserved), while every site of the rotated bottom region
carries no properties (`rotate_bottom_180` re-appends sites without their
properties). -/
theorem spec_C10 (slab : Structure) (d : ℚ) (T Brot : Structure)
    (hx : extract_surface_regions slab d = some (some T, some Brot)) :
    (∀ s ∈ T.sites, s ∈ slab.sites) ∧
    (∀ s ∈ Brot.sites, s.properties = []) := by
  simp only [extract_surface_regions] at hx
  split at hx
  · cases hx
  · rw [Option.some_inj, Prod.mk.injEq] at hx
    obtain ⟨htop, hbot⟩ := hx
    constructor
    · intro s hs
      have hh := (cut_out_z_region_some _ _ _ _ htop).2
      rw [hh] at hs
      exact (List.mem_filter.mp hs).1
    · intro s hs
      rcases Option.map_eq_some'.mp hbot with ⟨B, hB, hrot⟩
      rw [← hrot] at hs
      simp only [rotate_bottom_180] at hs
      rcases List.mem_map.mp hs with ⟨s0, hs0mem, hs0⟩
      rw [← hs0]

/-- Witness for C10 at a concrete slab whose first site carries a
selective-dynamics property. -/
theorem spec_C10_witness :
    (∀ s ∈ exSlabP.sites, s ∈ exSlabP.sites) ∧
    (∀ s ∈ (rotate_bottom_180 exSlabP).sites, s.properties = []) := by
  have hmax : zMaxOf exSlabP = 0 := rfl
  have hmin : zMinOf exSlabP = 0 := rfl
  have hemp : exSlabP.sites.isEmpty = false := rfl
  have hcut : cut_out_z_region exSlabP 0 0 = some exSlabP := rfl
  refine spec_C10 exSlabP 0 exSlabP (rotate_bottom_180 exSlabP) ?_
  simp only [extract_surface_regions, hmax, hmin, sub_zero, add_zero, hemp,
    Bool.false_eq_true, if_false, hcut]
  rfl

/-- Claim C7: over `N` enumerated Miller indices, the progress callback is
invoked exactly `N + 1` times: with `(i, N)` immediately before processing the
i-th index, for `i = 0 … N−1` in enumeration order, and once more with
`(N, N)` after all indices are processed. -/
theorem spec_C7 (env : ScreenEnv) (isSym : Slab → Except String Bool)
    (sc : SurfaceScreener) :
    (screen env isSym sc).2.2 =
      ((List.range (screenMillers env sc).length).map fun i =>
        (i, (screenMillers env sc).length)) ++
      [((screenMillers env sc).length, (screenMillers env sc).length)] ∧
    (screen env isSym sc).2.2.length = (screenMillers env sc).length + 1 := by
  have h1 : (screen env isSym sc).2.2 =
      progressTrace (screenMillers env sc).length 0
        (screenMillers env sc).length ++
      [((screenMillers env sc).length, (screenMillers env sc).length)] := by
    simp only [screen]
    rw [screenLoop_trace]
  constructor
  · rw [h1, progressTrace_eq_range]
    simp
  · rw [h1]
    simp [progressTrace_length]

/-- Claim C2: if the slab build fails (with stringified error `e`) for exactly
one enumerated Miller index and succeeds for all others, the screening run
records exactly one failure entry holding that index and error, returns the
results of the other `N − 1` indices, and (being a total function) lets no
exception escape. -/
theorem spec_C2 (env : ScreenEnv) (isSym : Slab → Except String Bool)
    (sc : SurfaceScreener) (mBad : Int × Int × Int) (e : String)
    (l1 l2 : List (Int × Int × Int))
    (hsplit : screenMillers env sc = l1 ++ mBad :: l2)
    (hfail : buildAt env sc mBad = Except.error e)
    (hok : ∀ m ∈ l1 ++ l2, ∃ slabs, buildAt env sc m = Except.ok slabs) :
    (screen env isSym sc).2.1 = [{ miller := mBad, error := e }] ∧
    (screen env isSym sc).1 =
      (l1 ++ l2).flatMap (resultsForIndex env isSym sc) ∧
    (l1 ++ l2).length = (screenMillers env sc).length - 1 := by
  have hres : (screen env isSym sc).1 =
      (screenMillers env sc).flatMap (resultsForIndex env isSym sc) := by
    simp only [screen]
    rw [screenLoop_results]
  have hfl : (screen env isSym sc).2.1 =
      (screenMillers env sc).filterMap (failureFor env sc) := by
    simp only [screen]
    rw [screenLoop_failures]
  refine ⟨?_, ?_, ?_⟩
  · rw [hfl, hsplit, List.filterMap_append,
      filterMap_failureFor_nil env sc l1
        (fun m hm => hok m (List.mem_append_left _ hm))]
    simp only [List.filterMap_cons, failureFor, hfail,
      filterMap_failureFor_nil env sc l2
        (fun m hm => hok m (List.mem_append_right _ hm))]
    rfl
  · rw [hres, hsplit, List.flatMap_append, List.flatMap_cons]
    have hbad : resultsForIndex env isSym sc mBad = [] := by
      simp [resultsForIndex, hfail]
    rw [hbad, List.flatMap_append]
    simp
  · rw [hsplit]
    simp only [List.length_append, List.length_cons]
    omega

/-- Witness for C2: a concrete screening environment over three Miller
indices in which the builder fails exactly for `(0,1,0)`. -/
theorem spec_C2_witness :
    (screen exEnv exSym exSc).2.1 =
      [{ miller := ((0 : Int), (1 : Int), (0 : Int)), error := "boom" }] ∧
    (screen exEnv exSym exSc).1 =
      ([((1 : Int), (0 : Int), (0 : Int))] ++
        [((1 : Int), (1 : Int), (1 : Int))]).flatMap
        (resultsForIndex exEnv exSym exSc) ∧
    ([((1 : Int), (0 : Int), (0 : Int))] ++
      [((1 : Int), (1 : Int), (1 : Int))]).length =
      (screenMillers exEnv exSc).length - 1 :=
  spec_C2 exEnv exSym exSc (0, 1, 0) "boom" [(1, 0, 0)] [(1, 1, 1)] rfl rfl
    (by
      intro m hm
      refine ⟨[exSlab0], ?_⟩
      rcases List.mem_cons.mp hm with h1 | h2
      · rw [h1]; rfl
      · rcases List.mem_singleton.mp h2 with h3
        rw [h3]; rfl)

theorem flatMap_map_stripSym (env : ScreenEnv) (sc : SurfaceScreener)
    (iS1 iS2 : Slab → Except String Bool) (l : List (Int × Int × Int)) :
    (l.flatMap (resultsForIndex env iS1 sc)).map stripSym =
    (l.flatMap (resultsForIndex env iS2 sc)).map stripSym := by
  induction l with
  | nil => rfl
  | cons m rest ih =>
    simp only [List.flatMap_cons, List.map_append, ih]
    congr 1
    unfold resultsForIndex
    cases hb : buildAt env sc m with
    | error e => rfl
    | ok slabs =>
      simp only [List.map_map]
      apply List.map_congr_left
      intro s _
      simp [Function.comp, stripSym, mkResult]

/-- Claim C6: an exception inside the symmetry classification of a produced
slab is absorbed: the result record's symmetry flag becomes the unknown value
(`none`), and the batch is otherwise unaffected by the symmetry checker — the
failure list, the callback trace, and the results modulo the symmetry flag
are identical for any two symmetry checkers. -/
theorem spec_C6 :
    (∀ (env : ScreenEnv) (isSym : Slab → Except String Bool)
        (m : Int × Int × Int) (slab : Slab) (msg : String),
        isSym slab = Except.error msg →
        (mkResult env isSym m slab).is_symmetric = none) ∧
    (∀ (env : ScreenEnv) (iS1 iS2 : Slab → Except String Bool)
        (sc : SurfaceScreener),
        (screen env iS1 sc).2.1 = (screen env iS2 sc).2.1 ∧
        (screen env iS1 sc).2.2 = (screen env iS2 sc).2.2 ∧
        ((screen env iS1 sc).1).map stripSym =
          ((screen env iS2 sc).1).map stripSym) := by
  constructor
  · intro env isSym m slab msg hmsg
    simp [mkResult, hmsg]
  · intro env iS1 iS2 sc
    have hfl : ∀ iS : Slab → Except String Bool, (screen env iS sc).2.1 =
        (screenMillers env sc).filterMap (failureFor env sc) := by
      intro iS
      simp only [screen]
      rw [screenLoop_failures]
    have htr : ∀ iS : Slab → Except String Bool, (screen env iS sc).2.2 =
        progressTrace (screenMillers env sc).length 0
          (screenMillers env sc).length ++
        [((screenMillers env sc).length, (screenMillers env sc).length)] := by
      intro iS
      simp only [screen]
      rw [screenLoop_trace]
    have hres : ∀ iS : Slab → Except String Bool, (screen env iS sc).1 =
        (screenMillers env sc).flatMap (resultsForIndex env iS sc) := by
      intro iS
      simp only [screen]
      rw [screenLoop_results]
    refine ⟨by rw [hfl iS1, hfl iS2], by rw [htr iS1, htr iS2], ?_⟩
    rw [hres iS1, hres iS2]
    exact flatMap_map_stripSym env sc iS1 iS2 _

/-- Witness for C6: a concrete always-raising symmetry check yields an
unknown flag, and swapping the symmetry checker leaves the failure list
unchanged. -/
theorem spec_C6_witness :
    (mkResult exEnv exSymFail ((1 : Int), (0 : Int), (0 : Int))
      exSlab0).is_symmetric = none ∧
    (screen exEnv exSym exSc).2.1 = (screen exEnv exSymFail exSc).2.1 :=
  ⟨spec_C6.1 exEnv exSymFail (1, 0, 0) exSlab0 "sym boom" rfl,
   (spec_C6.2 exEnv exSym exSymFail exSc).1⟩

/-- Claim C8: on the heap model of Python object identity, the slab builder,
the region cuts, the bottom rotation and the region extraction all leave the
caller's structure (heap cell `r`) unchanged: the builder's only in-place
mutation (`make_supercell`) targets its own freshly allocated working copy,
and the other operations only read `r` and allocate fresh objects. -/
theorem spec_C8 (lib : SlabGenLib) (heap : Heap) (r : Nat)
    (hr : r < heap.length) (h k l : Int) (z_reps : Nat) (min_vac : ℚ)
    (center_slab all_terminations force_ortho : Bool) (zmin zmax d : ℚ) :
    heapRead ((oriented_slab_replication_heap lib heap r h k l z_reps min_vac
      center_slab all_terminations force_ortho).1) r = heapRead heap r ∧
    heapRead ((cut_out_z_region_heap heap r zmin zmax).1) r =
      heapRead heap r ∧
    heapRead ((rotate_bottom_180_heap heap r).1) r = heapRead heap r ∧
    heapRead ((extract_surface_regions_heap heap r d).1) r =
      heapRead heap r := by
  refine ⟨?_, (cut_heap_preserve heap r zmin zmax r hr).1,
    heapRead_append _ _ _ hr, ?_⟩
  · have e1 : heapRead (heap ++ [heapRead heap r]) r = heapRead heap r :=
      heapRead_append _ _ _ hr
    have hlen1 : r < (heap ++ [heapRead heap r]).length := by
      simp only [List.length_append, List.length_cons, List.length_nil]
      omega
    have hne1 : r ≠ (heap ++ [heapRead heap r]).length := by
      simp only [List.length_append, List.length_cons, List.length_nil]
      omega
    have e2 : ∀ y t : Structure,
        heapRead (heapWrite ((heap ++ [heapRead heap r]) ++ [y])
          (heap ++ [heapRead heap r]).length t) r = heapRead heap r := by
      intro y t
      rw [heapRead_write_ne _ _ _ _ hne1, heapRead_append _ _ _ hlen1, e1]
    simp only [oriented_slab_replication_heap, heapAlloc]
    split
    · exact e1
    · split
      · exact e2 _ _
      · exact e2 _ _
  · simp only [extract_surface_regions_heap]
    split
    · rfl
    · have htop := cut_heap_preserve heap r
        (zMaxOf (heapRead heap r) - d) (zMaxOf (heapRead heap r)) r hr
      have hr2 : r < ((cut_out_z_region_heap heap r
          (zMaxOf (heapRead heap r) - d) (zMaxOf (heapRead heap r))).1).length :=
        lt_of_lt_of_le hr htop.2
      have hbot := cut_heap_preserve
        (cut_out_z_region_heap heap r (zMaxOf (heapRead heap r) - d)
          (zMaxOf (heapRead heap r))).1 r
        (zMinOf (heapRead heap r)) (zMinOf (heapRead heap r) + d) r hr2
      split
      · rw [hbot.1, htop.1]
      · simp only [rotate_bottom_180_heap, heapAlloc]
        rw [heapRead_append _ _ _ (lt_of_lt_of_le hr2 hbot.2), hbot.1, htop.1]

/-- Witness for C8 on a concrete one-cell heap. -/
theorem spec_C8_witness :
    0 < ([exBulk] : Heap).length ∧
    (heapRead ((oriented_slab_replication_heap trivLib [exBulk] 0 1 0 0 2 10
      false false false).1) 0 = heapRead [exBulk] 0 ∧
    heapRead ((cut_out_z_region_heap [exBulk] 0 0 1).1) 0 =
      heapRead [exBulk] 0 ∧
    heapRead ((rotate_bottom_180_heap [exBulk] 0).1) 0 = heapRead [exBulk] 0 ∧
    heapRead ((extract_surface_regions_heap [exBulk] 0 3).1) 0 =
      heapRead [exBulk] 0) :=
  ⟨by decide, spec_C8 trivLib [exBulk] 0 (by decide) 1 0 0 2 10 false false
    false 0 1 3⟩
